import Mathlib

/-!
Shallow embedding of the step-execution engine of `setup_ubuntu.py`:
the Process Executor (`_run_cmd`), the Step Runner (`_run_step`), the
Run Controller (`main`) and the Summary Reporter (`_print_summary`).

External shell commands are modelled by an oracle `Exec` mapping a
command string to its outcome (return code, stdout, stderr); the
zero-argument callables stored in step dictionaries (`skip_if`, `run`)
are modelled by the value they produce when invoked: a `Bool` for the
skip predicate, and an `Except String Bool` for the custom action
(`Except.error e` models the action raising an exception whose string
representation is `e`).
-/

namespace SetupUbuntu

/-- Closed status enumeration of a step result: the string field
`status` of the Python `Result` dataclass only ever holds
`"ok"`, `"skipped"` or `"failed"`. -/
inductive Status where
  | ok
  | skipped
  | failed
deriving DecidableEq, Repr

/-- The `Result` dataclass of the source: name, 1-based index, total
step count, status, diagnostic message (default empty) and the
optional flag (default `false`). -/
structure Result where
  step_name : String
  step_index : Nat
  total : Nat
  status : Status
  message : String := ""
  optional : Bool := false
deriving DecidableEq, Repr

/-- Outcome of one external shell command: what `subprocess.run`
reports back (return code plus captured stdout and stderr). -/
structure CmdOutcome where
  returncode : Int
  stdout : String
  stderr : String
deriving DecidableEq, Repr

/-- The external world: a deterministic oracle from command string to
command outcome, standing in for the shell. -/
abbrev Exec := String → CmdOutcome

/-- A step dictionary of the source. Absent keys are modelled by the
defaults: `commands` absent is the empty list (the source reads it
with `step.get("commands", [])`), `run` and `skip_if` absent are
`none`, `optional` and `show_output` default to `false` (read with
`step.get(..., False)`). -/
structure Step where
  name : String
  commands : List String := []
  run : Option (Except String Bool) := none
  skip_if : Option Bool := none
  optional : Bool := false
  show_output : Bool := false

/-- Model of Python `str.strip()`: drop whitespace characters from
both ends of the string. -/
def stripStr (s : String) : String :=
  String.mk (((s.data.dropWhile Char.isWhitespace).reverse.dropWhile
    Char.isWhitespace).reverse)

/-- Model of `_run_cmd(cmd, env, capture)`: returns
`(success, diagnosticText)`. Success is return code zero. With
`capture = true` the diagnostic text is
`(r.stderr or "").strip() or (r.stdout or "").strip()` — stripped
stderr, falling back to stripped stdout when the former is empty —
computed the same way whatever the return code. With
`capture = false` the diagnostic text is always empty. -/
def runCmd (exec : Exec) (cmd : String) (capture : Bool) : Bool × String :=
  let r := exec cmd
  if capture then
    (r.returncode == 0,
     if stripStr r.stderr = "" then stripStr r.stdout else stripStr r.stderr)
  else
    (r.returncode == 0, "")

/-- Observable execution events of a step: either one shell command
was handed to the Process Executor (after being echoed), or the
custom action was invoked. -/
inductive Event where
  | cmd (c : String)
  | action
deriving DecidableEq, Repr

/-- The command-sequence tail of `_run_step`: iterate over the
commands in order, stop at the first failure with a `failed` result
whose message is the diagnostic text or the fallback
`"exit code non-zero"` when that text is empty, and produce an `ok`
result with empty message when every command succeeds. The second
component records which commands actually ran. -/
def runCommands (exec : Exec) (name : String) (index total : Nat)
    (optional show_output : Bool) : List String → Result × List Event
  | [] =>
    ({ step_name := name, step_index := index, total := total,
       status := Status.ok, optional := optional }, [])
  | c :: rest =>
    let out := runCmd exec c (!show_output)
    if out.1 then
      let tail := runCommands exec name index total optional show_output rest
      (tail.1, Event.cmd c :: tail.2)
    else
      ({ step_name := name, step_index := index, total := total,
         status := Status.failed,
         message := if out.2 = "" then "exit code non-zero" else out.2,
         optional := optional },
       [Event.cmd c])

/-- Model of `_run_step(step, index, total, env)`. Skip predicate is
checked first (a present predicate that evaluated true yields a
`skipped` result — note the source builds that result without passing
`optional`, so it carries the dataclass default `false`); then a
present custom action is invoked (an exception is caught and becomes
a `failed` result carrying the exception text; returning `False`
yields the fixed message `"run() returned False"`); otherwise the
command list runs. The second component is the trace of executed
events. -/
def runStep (exec : Exec) (step : Step) (index total : Nat) : Result × List Event :=
  let name := step.name
  let optional := step.optional
  if step.skip_if = some true then
    ({ step_name := name, step_index := index, total := total,
       status := Status.skipped, message := "condition matched" }, [])
  else
    match step.run with
    | some (Except.ok b) =>
      ({ step_name := name, step_index := index, total := total,
         status := if b then Status.ok else Status.failed,
         message := if b then "" else "run() returned False",
         optional := optional }, [Event.action])
    | some (Except.error e) =>
      ({ step_name := name, step_index := index, total := total,
         status := Status.failed, message := e,
         optional := optional }, [Event.action])
    | none => runCommands exec name index total optional step.show_output step.commands

/-- Count of results with status `ok`, as in `_print_summary`. -/
def countOk (results : List Result) : Nat :=
  results.countP (fun r => r.status == Status.ok)

/-- Count of results with status `skipped`, as in `_print_summary`. -/
def countSkipped (results : List Result) : Nat :=
  results.countP (fun r => r.status == Status.skipped)

/-- Count of results with status `failed`, as in `_print_summary`. -/
def countFailed (results : List Result) : Nat :=
  results.countP (fun r => r.status == Status.failed)

/-- Count of failed results whose optional flag is set, as in
`_print_summary`. -/
def countFailedOptional (results : List Result) : Nat :=
  results.countP (fun r => r.status == Status.failed && r.optional)

/-- The source computes `failed_required = failed - failed_optional`. -/
def countFailedRequired (results : List Result) : Nat :=
  countFailed results - countFailedOptional results

/-- Semantic content of the lines `_print_summary` prints (the
decorative header and separator lines are presentation only and not
modelled). -/
inductive OutLine where
  | okCount (n total : Nat)
  | skippedCount (n : Nat)
  | failedOptionalCount (n : Nat)
  | failedRequiredCount (n : Nat)
deriving DecidableEq, Repr

/-- Model of `_print_summary(results, total)`: always prints the ok,
skipped and failed-optional counts; prints the failed-required count
only when it is non-zero (`if failed_required:` in the source). -/
def printSummary (results : List Result) (total : Nat) : List OutLine :=
  let fr := countFailedRequired results
  [OutLine.okCount (countOk results) total,
   OutLine.skippedCount (countSkipped results),
   OutLine.failedOptionalCount (countFailedOptional results)]
  ++ (if fr ≠ 0 then [OutLine.failedRequiredCount fr] else [])

/-- Observable outcome of one whole run of `main`: the accumulated
result list, the trace of executed events, the summary that was
printed, and the process exit status (`sys.exit(1)` on abort, falling
off the end of `main` is exit status `0`). -/
structure RunOutcome where
  results : List Result
  events : List Event
  summary : List OutLine
  exitCode : Nat
deriving DecidableEq, Repr

/-- The loop body of `main`: run each remaining step at its 1-based
index, append its result, and abort with exit status 1 the moment a
result is `failed` and not optional; the summary is printed with the
results accumulated so far in either terminal state. -/
def mainLoop (exec : Exec) (total : Nat) :
    List Step → Nat → List Result → List Event → RunOutcome
  | [], _, acc, evs =>
    { results := acc, events := evs, summary := printSummary acc total, exitCode := 0 }
  | s :: rest, i, acc, evs =>
    let out := runStep exec s i total
    let acc2 := acc ++ [out.1]
    let evs2 := evs ++ out.2
    if out.1.status == Status.failed && !out.1.optional then
      { results := acc2, events := evs2, summary := printSummary acc2 total, exitCode := 1 }
    else
      mainLoop exec total rest (i + 1) acc2 evs2

/-- Model of `main()` over an arbitrary ordered step list (the source
fixes the list to the global `STEPS`; the engine itself is uniform in
it). -/
def mainRun (exec : Exec) (steps : List Step) : RunOutcome :=
  mainLoop exec steps.length steps 1 [] []

/-- Per-step results of a step list started at 1-based index `i`,
exactly as the Run Controller would record them if nothing aborted. -/
def stepResults (exec : Exec) (total : Nat) : List Step → Nat → List Result
  | [], _ => []
  | s :: rest, i => (runStep exec s i total).1 :: stepResults exec total rest (i + 1)

/-- Per-step event traces of a step list started at index `i`,
concatenated in order. -/
def stepEvents (exec : Exec) (total : Nat) : List Step → Nat → List Event
  | [], _ => []
  | s :: rest, i => (runStep exec s i total).2 ++ stepEvents exec total rest (i + 1)

/-- Diagnostic text a captured command reports: stripped stderr,
falling back to stripped stdout, falling back to empty (when both
strip to empty the fallback chain ends in the empty string). -/
def diagText (o : CmdOutcome) : String :=
  if stripStr o.stderr = "" then stripStr o.stdout else stripStr o.stderr

/-- Concrete oracle for witnesses: the command `"good"` exits zero
silently, every other command exits 1 with stderr `"boom"`. -/
def execDemo : Exec := fun c =>
  if c = "good" then { returncode := 0, stdout := "", stderr := "" }
  else { returncode := 1, stdout := "", stderr := "boom" }

/-- Concrete oracle whose every command exits zero after writing
`"hello"` to stdout. -/
def execEcho : Exec := fun _ =>
  { returncode := 0, stdout := "hello", stderr := "" }

/-- Witness step that succeeds. -/
def stepA : Step := { name := "A", commands := ["good"] }

/-- Witness step that fails and is required. -/
def stepB : Step := { name := "B", commands := ["bad"] }

/-- Witness step that fails and is optional. -/
def stepBopt : Step := { name := "B", commands := ["bad"], optional := true }

/-- Witness step that succeeds. -/
def stepC : Step := { name := "C", commands := ["good"] }

/-- Witness step marked optional whose skip predicate fires. -/
def stepSkipOpt : Step := { name := "S", skip_if := some true, optional := true }

/-- Witness step whose custom action raises an exception. -/
def stepActionErr : Step := { name := "E", run := some (Except.error "kaboom") }

/-- Witness step whose second command fails, with a third command
after it. -/
def stepPartial : Step := { name := "P", commands := ["good", "bad", "good"] }

/-- Witness step with neither a custom action nor commands. -/
def stepEmpty : Step := { name := "N" }

section Lemmas

/-- A command-sequence result always carries the `optional` flag it
was given and is never `skipped`. -/
theorem runCommands_optional (exec : Exec) (name : String) (i t : Nat)
    (opt sh : Bool) :
    ∀ cmds : List String,
      (runCommands exec name i t opt sh cmds).1.optional = opt ∧
      (runCommands exec name i t opt sh cmds).1.status ≠ Status.skipped
  | [] => by simp [runCommands]
  | c :: rest => by
    have ih := runCommands_optional exec name i t opt sh rest
    rw [runCommands]
    cases h : (runCmd exec c (!sh)).1 <;> simp [h, ih]

/-- If every command of the list succeeds, running the list yields an
`ok` result with empty message and executes every command in order. -/
theorem runCommands_all_ok (exec : Exec) (name : String) (i t : Nat)
    (opt sh : Bool) :
    ∀ cmds : List String,
      (∀ c ∈ cmds, (runCmd exec c (!sh)).1 = true) →
      runCommands exec name i t opt sh cmds =
        ({ step_name := name, step_index := i, total := t,
           status := Status.ok, message := "", optional := opt },
         cmds.map Event.cmd)
  | [] => by simp [runCommands]
  | c :: rest => by
    intro hall
    have hc : (runCmd exec c (!sh)).1 = true := hall c (by simp)
    have ih := runCommands_all_ok exec name i t opt sh rest
      (fun d hd => hall d (by simp [hd]))
    rw [runCommands]
    simp [hc, ih]

/-- If the commands before `fc` all succeed and `fc` fails, running
the list stops at `fc`: the result is `failed` with the diagnostic
text (or the fixed fallback when it is empty), and exactly the
commands up to and including `fc` execute. -/
theorem runCommands_first_fail (exec : Exec) (name : String) (i t : Nat)
    (opt sh : Bool) (fc : String) (post : List String) :
    ∀ pre : List String,
      (∀ c ∈ pre, (runCmd exec c (!sh)).1 = true) →
      (runCmd exec fc (!sh)).1 = false →
      runCommands exec name i t opt sh (pre ++ fc :: post) =
        ({ step_name := name, step_index := i, total := t,
           status := Status.failed,
           message := if (runCmd exec fc (!sh)).2 = ""
                      then "exit code non-zero" else (runCmd exec fc (!sh)).2,
           optional := opt },
         (pre ++ [fc]).map Event.cmd)
  | [] => by
    intro _ hfc
    rw [List.nil_append, runCommands]
    simp [hfc]
  | c :: pre => by
    intro hpre hfc
    have hc : (runCmd exec c (!sh)).1 = true := hpre c (by simp)
    have ih := runCommands_first_fail exec name i t opt sh fc post pre
      (fun d hd => hpre d (by simp [hd])) hfc
    rw [List.cons_append, runCommands]
    simp [hc, ih]

/-- Running the controller loop over a prefix none of whose results
is a required failure records exactly those results and events and
continues with the remaining steps at the advanced index. -/
theorem mainLoop_passes_front (exec : Exec) (total : Nat) (rest : List Step) :
    ∀ (pre : List Step) (i : Nat) (acc : List Result) (evs : List Event),
      (∀ r ∈ stepResults exec total pre i,
        ¬(r.status = Status.failed ∧ r.optional = false)) →
      mainLoop exec total (pre ++ rest) i acc evs =
        mainLoop exec total rest (i + pre.length)
          (acc ++ stepResults exec total pre i)
          (evs ++ stepEvents exec total pre i)
  | [], i, acc, evs => by
    intro _
    simp [stepResults, stepEvents]
  | s :: pre, i, acc, evs => by
    intro hpre
    have hs := hpre (runStep exec s i total).1 (by simp [stepResults])
    have hcond : ((runStep exec s i total).1.status == Status.failed &&
        !(runStep exec s i total).1.optional) = false := by
      cases h1 : (runStep exec s i total).1.status <;>
        cases h2 : (runStep exec s i total).1.optional <;> simp_all
    have ih := mainLoop_passes_front exec total rest pre (i + 1)
      (acc ++ [(runStep exec s i total).1]) (evs ++ (runStep exec s i total).2)
      (fun r hr => hpre r (by simp [stepResults, hr]))
    rw [List.cons_append, mainLoop]
    simp only [hcond, Bool.false_eq_true, if_false]
    rw [ih]
    have harith : i + 1 + pre.length = i + (s :: pre).length := by
      simp
      omega
    rw [harith]
    simp [stepResults, stepEvents, List.append_assoc]

end Lemmas

/-- C2 (counterexample): the claim says diagnosticText is the empty
string whenever the command exits zero; but `_run_cmd` computes the
stderr-then-stdout fallback text unconditionally, so a command that
exits zero after printing `"hello"` yields diagnosticText `"hello"`,
not the empty string. -/
theorem C2_counterexample :
    (execEcho "cmd").returncode = 0 ∧ (runCmd execEcho "cmd" true).2 ≠ "" := by
  decide

/-- C2 (amended): with captureOutput true, success is exactly
return code zero, and diagnosticText is the stderr-falling-back-to-
stdout-falling-back-to-empty text whatever the exit code; in
particular on non-zero exit it is that fallback text, as claimed,
while on zero exit it is the same fallback text (not necessarily
empty), which the caller discards. -/
theorem C2_diag_any_exit (exec : Exec) (cmd : String) :
    (runCmd exec cmd true).1 = ((exec cmd).returncode == 0) ∧
    (runCmd exec cmd true).2 = diagText (exec cmd) := by
  constructor <;> rfl

/-- C3 (counterexample): a skipped step whose descriptor is marked
optional produces a result whose `optional` field is `false`, not the
`true` of the descriptor — the source builds the skipped `Result` without
passing `optional`, so the dataclass default applies. -/
theorem C3_counterexample :
    stepSkipOpt.optional = true ∧
    (runStep execDemo stepSkipOpt 1 1).1.optional = false := by
  decide

/-- C3 (amended): the `optional` field of a Step Runner result equals
the optional flag of the descriptor whenever the result is not `skipped`;
a `skipped` result always carries `optional = false` (the dataclass
default), which agrees with the descriptor only when the descriptor
is not optional. -/
theorem C3_optional_copied (exec : Exec) (step : Step) (i t : Nat) :
    (runStep exec step i t).1.optional =
      (if (runStep exec step i t).1.status = Status.skipped then false
       else step.optional) := by
  by_cases hskip : step.skip_if = some true
  · simp [runStep, hskip]
  · cases hrun : step.run with
    | some act =>
      cases act with
      | ok b => cases b <;> simp [runStep, hskip, hrun]
      | error e => simp [runStep, hskip, hrun]
    | none =>
      have h := runCommands_optional exec step.name i t step.optional
        step.show_output step.commands
      simp [runStep, hskip, hrun, h.1, if_neg h.2]

/-- C5: a step whose skip predicate is present and evaluates true is
returned as `skipped` with message `"condition matched"`, and no
command and no custom action executes (the event trace is empty),
whatever commands or action the descriptor holds. -/
theorem C5_skip_short_circuits (exec : Exec) (name : String)
    (cmds : List String) (act : Option (Except String Bool))
    (opt sh : Bool) (i t : Nat) :
    runStep exec
      { name := name, commands := cmds, run := act, skip_if := some true,
        optional := opt, show_output := sh } i t =
      ({ step_name := name, step_index := i, total := t,
         status := Status.skipped, message := "condition matched" }, []) := by
  rfl

/-- C6: for a step with a custom action (and a skip predicate that
does not fire), a raised exception becomes a `failed` result carrying
the exception text — the Step Runner returns normally, so nothing
propagates past it; a plain `False` return becomes `failed` with the
fixed message `"run() returned False"`; a `True` return becomes
`ok`. -/
theorem C6_custom_action (exec : Exec) (step : Step) (i t : Nat)
    (hskip : ¬ step.skip_if = some true) :
    (∀ e, step.run = some (Except.error e) →
      runStep exec step i t =
        ({ step_name := step.name, step_index := i, total := t,
           status := Status.failed, message := e,
           optional := step.optional }, [Event.action])) ∧
    (step.run = some (Except.ok false) →
      runStep exec step i t =
        ({ step_name := step.name, step_index := i, total := t,
           status := Status.failed, message := "run() returned False",
           optional := step.optional }, [Event.action])) ∧
    (step.run = some (Except.ok true) →
      runStep exec step i t =
        ({ step_name := step.name, step_index := i, total := t,
           status := Status.ok, message := "",
           optional := step.optional }, [Event.action])) := by
  refine ⟨fun e he => ?_, fun h => ?_, fun h => ?_⟩ <;>
    simp [runStep, hskip, *]

/-- C6 (witness): a step whose action raises an exception with text
`"kaboom"` yields a failed result carrying exactly that text. -/
theorem C6_witness :
    runStep execDemo stepActionErr 1 1 =
      ({ step_name := "E", step_index := 1, total := 1,
         status := Status.failed, message := "kaboom",
         optional := false }, [Event.action]) :=
  (C6_custom_action execDemo stepActionErr 1 1 (by decide)).1 "kaboom" rfl

/-- C7: for a command-sequence step (no custom action, skip predicate
not firing), if every command succeeds the result is `ok` with empty
message and every command runs in list order; if the commands before
`fc` succeed and `fc` fails, exactly the commands up to and including
`fc` run and the result is `failed` with the failing command distinguished
diagnostic text as message, falling back to the literal
`"exit code non-zero"` when that text is empty. -/
theorem C7_command_sequence (exec : Exec) (step : Step) (i t : Nat)
    (hskip : ¬ step.skip_if = some true) (hrun : step.run = none) :
    ((∀ c ∈ step.commands, (runCmd exec c (!step.show_output)).1 = true) →
      runStep exec step i t =
        ({ step_name := step.name, step_index := i, total := t,
           status := Status.ok, message := "", optional := step.optional },
         step.commands.map Event.cmd)) ∧
    (∀ pre fc post, step.commands = pre ++ fc :: post →
      (∀ c ∈ pre, (runCmd exec c (!step.show_output)).1 = true) →
      (runCmd exec fc (!step.show_output)).1 = false →
      runStep exec step i t =
        ({ step_name := step.name, step_index := i, total := t,
           status := Status.failed,
           message := if (runCmd exec fc (!step.show_output)).2 = ""
                      then "exit code non-zero"
                      else (runCmd exec fc (!step.show_output)).2,
           optional := step.optional },
         (pre ++ [fc]).map Event.cmd)) := by
  constructor
  · intro hall
    simp only [runStep, if_neg hskip, hrun]
    exact runCommands_all_ok exec step.name i t step.optional
      step.show_output step.commands hall
  · intro pre fc post hdec hpre hfc
    simp only [runStep, if_neg hskip, hrun]
    rw [hdec]
    exact runCommands_first_fail exec step.name i t step.optional
      step.show_output fc post pre hpre hfc

/-- C7 (witness): in the step with commands
`["good", "bad", "good"]` under the demo oracle, the first command
runs and succeeds, the second runs and fails with stderr `"boom"`,
and the third never runs. -/
theorem C7_witness :
    runStep execDemo stepPartial 1 1 =
      ({ step_name := "P", step_index := 1, total := 1,
         status := Status.failed, message := "boom", optional := false },
       [Event.cmd "good", Event.cmd "bad"]) := by
  have h := (C7_command_sequence execDemo stepPartial 1 1 (by decide) rfl).2
    ["good"] "bad" ["good"] rfl (by decide) (by decide)
  exact h.trans (by decide)

/-- C10: a step with no custom action, an absent-or-empty command
list, and a skip predicate that does not fire executes nothing and
returns `ok` with empty message. -/
theorem C10_no_work_ok (exec : Exec) (step : Step) (i t : Nat)
    (hskip : ¬ step.skip_if = some true) (hrun : step.run = none)
    (hcmds : step.commands = []) :
    runStep exec step i t =
      ({ step_name := step.name, step_index := i, total := t,
         status := Status.ok, message := "", optional := step.optional }, []) := by
  simp [runStep, hskip, hrun, hcmds, runCommands]

/-- C10 (witness): the bare step named `"N"` (no commands, no action,
no skip predicate) yields an `ok` result with empty message and runs
nothing. -/
theorem C10_witness :
    runStep execDemo stepEmpty 1 1 =
      ({ step_name := "N", step_index := 1, total := 1,
         status := Status.ok, message := "", optional := false }, []) :=
  C10_no_work_ok execDemo stepEmpty 1 1 (by decide) rfl rfl

/-- C8: for every result list the summary counts satisfy
`ok + skipped + failed = length` (every status is one of the closed
enumeration) and `failed = failedOptional + failedRequired` (the
source computes failedRequired as the difference, and failedOptional
counts a subset of the failed results). -/
theorem C8_summary_arithmetic (results : List Result) :
    countOk results + countSkipped results + countFailed results =
      results.length ∧
    countFailed results =
      countFailedOptional results + countFailedRequired results := by
  refine ⟨?_, ?_⟩
  · induction results with
    | nil => rfl
    | cons r rs ih =>
      simp only [countOk, countSkipped, countFailed, List.countP_cons,
        List.length_cons] at ih ⊢
      cases h : r.status <;> simp [h] <;> omega
  · have hle : countFailedOptional results ≤ countFailed results := by
      induction results with
      | nil => simp [countFailedOptional, countFailed]
      | cons r rs ih =>
        simp only [countFailedOptional, countFailed, List.countP_cons] at ih ⊢
        cases h2 : (r.status == Status.failed) <;> cases h3 : r.optional <;>
          simp [h2, h3] <;> omega
    simp only [countFailedRequired]
    omega

/-- C9: the summary always contains the ok, skipped and
failed-optional count lines, and contains a failed-required count
line exactly when the failed-required count is positive. -/
theorem C9_summary_lines (results : List Result) (total : Nat) :
    OutLine.okCount (countOk results) total ∈ printSummary results total ∧
    OutLine.skippedCount (countSkipped results) ∈ printSummary results total ∧
    OutLine.failedOptionalCount (countFailedOptional results) ∈
      printSummary results total ∧
    ((∃ n, OutLine.failedRequiredCount n ∈ printSummary results total) ↔
      0 < countFailedRequired results) := by
  refine ⟨by simp [printSummary], by simp [printSummary],
    by simp [printSummary], ?_⟩
  by_cases h : countFailedRequired results = 0
  · simp [printSummary, h]
  · simp only [printSummary, if_pos h]
    simp [h]
    omega

/-- C1: when the steps before `b` produce no required failure and `b`
produces a failed, non-optional result, the run records exactly the
results of the steps up to and including `b` (nothing from the later
steps runs or is recorded), prints the summary over exactly those
results, and exits with status 1. -/
theorem C1_abort_on_required_failure (exec : Exec) (steps pre : List Step)
    (b : Step) (post : List Step)
    (hsteps : steps = pre ++ b :: post)
    (hpre : ∀ r ∈ stepResults exec steps.length pre 1,
      ¬(r.status = Status.failed ∧ r.optional = false))
    (hb : (runStep exec b (1 + pre.length) steps.length).1.status =
            Status.failed ∧
          (runStep exec b (1 + pre.length) steps.length).1.optional = false) :
    mainRun exec steps =
      { results := stepResults exec steps.length pre 1 ++
          [(runStep exec b (1 + pre.length) steps.length).1],
        events := stepEvents exec steps.length pre 1 ++
          (runStep exec b (1 + pre.length) steps.length).2,
        summary := printSummary
          (stepResults exec steps.length pre 1 ++
            [(runStep exec b (1 + pre.length) steps.length).1]) steps.length,
        exitCode := 1 } := by
  subst hsteps
  rw [mainRun,
    mainLoop_passes_front exec (pre ++ b :: post).length (b :: post) pre 1 [] []
      hpre]
  simp only [List.nil_append]
  rw [mainLoop]
  have hcond : ((runStep exec b (1 + pre.length)
      (pre ++ b :: post).length).1.status == Status.failed &&
      !(runStep exec b (1 + pre.length)
        (pre ++ b :: post).length).1.optional) = true := by
    rw [hb.1, hb.2]
    rfl
  simp only [hcond, if_true]

/-- C1 (witness): with required step B failing after A, the demo run
records exactly two results and exits with status 1. -/
theorem C1_witness :
    (mainRun execDemo [stepA, stepB, stepC]).results.length = 2 ∧
    (mainRun execDemo [stepA, stepB, stepC]).exitCode = 1 := by
  have h := C1_abort_on_required_failure execDemo [stepA, stepB, stepC]
    [stepA] stepB [stepC] rfl (by decide) (by decide)
  refine ⟨by rw [h]; decide, by rw [h]⟩

/-- C4: when A succeeds, B fails but is optional, and C succeeds, all
three steps run and are recorded in order, the summary is printed
over the three results with failedOptional counted as 1 and
failedRequired as 0 (so its line is omitted from the summary), and
the run exits with status 0. -/
theorem C4_optional_failure_continues (exec : Exec) (a b c : Step)
    (ha : (runStep exec a 1 3).1.status = Status.ok)
    (hb1 : (runStep exec b 2 3).1.status = Status.failed)
    (hb2 : (runStep exec b 2 3).1.optional = true)
    (hc : (runStep exec c 3 3).1.status = Status.ok) :
    mainRun exec [a, b, c] =
      { results := [(runStep exec a 1 3).1, (runStep exec b 2 3).1,
          (runStep exec c 3 3).1],
        events := (runStep exec a 1 3).2 ++ (runStep exec b 2 3).2 ++
          (runStep exec c 3 3).2,
        summary := printSummary [(runStep exec a 1 3).1,
          (runStep exec b 2 3).1, (runStep exec c 3 3).1] 3,
        exitCode := 0 } ∧
    countFailedOptional [(runStep exec a 1 3).1, (runStep exec b 2 3).1,
      (runStep exec c 3 3).1] = 1 ∧
    countFailedRequired [(runStep exec a 1 3).1, (runStep exec b 2 3).1,
      (runStep exec c 3 3).1] = 0 ∧
    (∀ n, OutLine.failedRequiredCount n ∉
      printSummary [(runStep exec a 1 3).1, (runStep exec b 2 3).1,
        (runStep exec c 3 3).1] 3) := by
  have hfo : countFailedOptional [(runStep exec a 1 3).1,
      (runStep exec b 2 3).1, (runStep exec c 3 3).1] = 1 := by
    simp [countFailedOptional, List.countP_cons, ha, hb1, hb2, hc]
  have hfr : countFailedRequired [(runStep exec a 1 3).1,
      (runStep exec b 2 3).1, (runStep exec c 3 3).1] = 0 := by
    simp [countFailedRequired, countFailed, countFailedOptional,
      List.countP_cons, ha, hb1, hb2, hc]
  have ca : ((runStep exec a 1 3).1.status == Status.failed &&
      !(runStep exec a 1 3).1.optional) = false := by simp [ha]
  have cb : ((runStep exec b 2 3).1.status == Status.failed &&
      !(runStep exec b 2 3).1.optional) = false := by simp [hb1, hb2]
  have cc : ((runStep exec c 3 3).1.status == Status.failed &&
      !(runStep exec c 3 3).1.optional) = false := by simp [hc]
  refine ⟨?_, hfo, hfr, fun n => ?_⟩
  · show mainLoop exec 3 [a, b, c] 1 [] [] = _
    rw [mainLoop]
    simp only [ca, Bool.false_eq_true, if_false]
    rw [mainLoop]
    simp only [cb, Bool.false_eq_true, if_false]
    rw [mainLoop]
    simp only [cc, Bool.false_eq_true, if_false]
    rw [mainLoop]
    simp [List.append_assoc]
  · simp [printSummary, hfr]

/-- C4 (witness): the demo run [A(ok), B(fails, optional), C(ok)]
records three results, exits with status 0, and its summary contains
no failed-required line while reporting one optional failure. -/
theorem C4_witness :
    (mainRun execDemo [stepA, stepBopt, stepC]).results.length = 3 ∧
    (mainRun execDemo [stepA, stepBopt, stepC]).exitCode = 0 ∧
    (mainRun execDemo [stepA, stepBopt, stepC]).summary =
      [OutLine.okCount 2 3, OutLine.skippedCount 0,
       OutLine.failedOptionalCount 1] := by
  have h := (C4_optional_failure_continues execDemo stepA stepBopt stepC
    (by decide) (by decide) (by decide) (by decide)).1
  refine ⟨by rw [h]; rfl, by rw [h], by rw [h]; decide⟩

end SetupUbuntu
